import Mathlib

/-!
Shallow embedding of the circulation core of the library-management backend
(controllers `borrowTransaction.controller.js`, `reservation.controller.js`,
the fine-payment handler in `wishlist.controller.js`, and the role gate of
`auth.middleware.js` / the borrow-transaction routes).

Timestamps are modelled as integer milliseconds since the epoch with the
server clock in UTC; JavaScript `setDate`/`setHours(23,59,59,999)` day
arithmetic becomes explicit arithmetic on millisecond counts.  Identifiers
are natural numbers.  Monetary amounts (`Decimal` columns, `parseFloat`)
are modelled in exact cents, as integers (a `Decimal(6,2)` column is an
exact multiple of 0.01; the float artifacts of `parseFloat` are ignored).
A Prisma interactive transaction either
commits (the operation returns the new database state) or rolls back (the
operation returns an error and the caller keeps the old state), so every
operation is a pure function `DB -> Except ApiError (DB × result)`.
-/

/-- Milliseconds in one day, the constant `1000 * 60 * 60 * 24` used by
`calculateOverdueDays`. -/
def msPerDay : Int := 1000 * 60 * 60 * 24

/-- Midnight (00:00:00.000 UTC) of the day containing instant `t`. -/
def startOfDayUTC (t : Int) : Int := (t.fdiv msPerDay) * msPerDay

/-- End of day (23:59:59.999 UTC) of the day containing instant `t`,
the effect of JavaScript `setHours(23, 59, 59, 999)`. -/
def endOfDayUTC (t : Int) : Int := startOfDayUTC t + (msPerDay - 1)

/-- `Math.ceil(a / msPerDay)` on an exact integer count `a` of milliseconds. -/
def ceilDivMs (a : Int) : Int := -((-a).fdiv msPerDay)

/-- The helper `calculateOverdueDays(borrowDate, returnDate, maxBorrowDays)`
of `borrowTransaction.controller.js` (part_006 lines 10-30).  Arguments are
`Option`s so that the JavaScript falsiness guard
`!borrowDate || !returnDate || !maxBorrowDays || maxBorrowDays <= 0` is
representable: a missing date is `none`, and `!maxBorrowDays` is true
exactly for `0`, which the `maxBorrowDays <= 0` disjunct subsumes. -/
def calculateOverdueDays (borrowDate returnDate maxBorrowDays : Option Int) : Int :=
  match borrowDate, returnDate, maxBorrowDays with
  | some bd, some rd, some m =>
    if m ≤ 0 then 0
    else
      -- dueDate: copy of borrowDate, setDate(getDate() + maxBorrowDays),
      -- then setHours(23, 59, 59, 999)
      let dueDate := startOfDayUTC bd + m * msPerDay + (msPerDay - 1)
      if rd ≤ dueDate then 0
      else
        let diffTime := rd - dueDate
        max 0 (ceilDivMs diffTime)
  | _, _, _ => 0

/-- Modelled from the spec: the overdue-day count
`max(0, ceil((returnDate − (borrowDate + maxBorrowDays)) / 1 day))` with
end-of-day due-time semantics (the due instant is the end of the day of
`borrowDate + maxBorrowDays`).  Written from the spec's words, to be
compared with `calculateOverdueDays`, which is translated from the code. -/
def specOverdueDays (bd rd m : Int) : Int :=
  max 0 (ceilDivMs (rd - endOfDayUTC (bd + m * msPerDay)))

/-- Book row: the three copy counters plus owning library.  Counters are
integers (not naturals) because the code applies unguarded decrements. -/
structure Book where
  book_id : Nat
  library_id : Nat
  total_copies : Int
  available_copies : Int
  reserved_copies : Int
deriving DecidableEq

/-- User row: identity, activity flag and the denormalized membership lists. -/
structure User where
  user_id : Nat
  library_id : Nat
  is_active : Bool
  borrowed_book_ids : List Nat
  reserved_book_ids : List Nat
deriving DecidableEq

/-- Policy row, one per library. -/
structure Policy where
  library_id : Nat
  max_borrow_days : Int
  /-- `Decimal(6,2)`, in cents. -/
  fine_per_day : Int
  max_books_per_user : Int
  reservation_expiry_days : Int
deriving DecidableEq

/-- The `BorrowStatus` enum of the Prisma schema. -/
inductive BorrowStatus where
  | requested
  | borrowed
  | returned
  | overdue
deriving DecidableEq

/-- Borrow-transaction (Loan) row. -/
structure BorrowTransaction where
  borrow_id : Nat
  user_id : Nat
  book_id : Nat
  borrow_date : Int
  return_date : Option Int
  status : BorrowStatus
deriving DecidableEq

/-- Reservation row. -/
structure Reservation where
  reservation_id : Nat
  user_id : Nat
  book_id : Nat
  reserved_at : Int
  expires_at : Int
  library_id : Nat
deriving DecidableEq

/-- Fine row. -/
structure Fine where
  fine_id : Nat
  borrow_id : Nat
  user_id : Nat
  book_id : Nat
  library_id : Nat
  /-- `Decimal(8,2)`, in cents. -/
  amount : Int
  reason : String
  is_paid : Bool
deriving DecidableEq

/-- The relational store, plus a counter supplying freshly generated ids. -/
structure DB where
  users : List User
  books : List Book
  policies : List Policy
  reservations : List Reservation
  transactions : List BorrowTransaction
  fines : List Fine
  nextId : Nat
deriving DecidableEq

/-- `tx.user.findUnique({ where: { user_id } })`. -/
def findUser (db : DB) (uid : Nat) : Option User :=
  db.users.find? (fun u => u.user_id == uid)

/-- `tx.user.findUniqueOrThrow({ where: { user_id, is_active: true } })`. -/
def findActiveUser (db : DB) (uid : Nat) : Option User :=
  db.users.find? (fun u => u.user_id == uid && u.is_active)

/-- `tx.book.findUniqueOrThrow({ where: { book_id } })`. -/
def findBook (db : DB) (bid : Nat) : Option Book :=
  db.books.find? (fun b => b.book_id == bid)

/-- `tx.policy.findUniqueOrThrow({ where: { library_id } })`. -/
def findPolicy (db : DB) (lid : Nat) : Option Policy :=
  db.policies.find? (fun p => p.library_id == lid)

/-- `tx.reservation.findFirst({ where: { user_id, book_id } })`. -/
def findReservationFor (db : DB) (uid bid : Nat) : Option Reservation :=
  db.reservations.find? (fun r => r.user_id == uid && r.book_id == bid)

/-- `tx.borrowTransaction.findUniqueOrThrow({ where: { borrow_id } })`. -/
def findTransaction (db : DB) (tid : Nat) : Option BorrowTransaction :=
  db.transactions.find? (fun t => t.borrow_id == tid)

/-- `prisma.fine.findUniqueOrThrow({ where: { fine_id } })`. -/
def findFine (db : DB) (fid : Nat) : Option Fine :=
  db.fines.find? (fun f => f.fine_id == fid)

/-- The typed failures the controllers surface.  Each constructor names the
thrown message / Prisma error the catch blocks translate to a status code. -/
inductive ApiError where
  /-- Prisma `P2025`: a `findUniqueOrThrow` or targeted update found no row. -/
  | notFound
  /-- message contains `different libraries`. -/
  | differentLibraries
  /-- message contains `borrowed this book`. -/
  | alreadyBorrowed
  /-- message contains `borrowing limit`. -/
  | limitReached
  /-- message contains `reserved copies available`. -/
  | noReservedCopies
  /-- message contains `not available`. -/
  | notAvailable
  /-- message contains `currently have borrowed` (reservation controller). -/
  | cannotReserveBorrowed
  /-- message contains `Forbidden`. -/
  | forbidden
  /-- message contains `already been marked` (as returned). -/
  | alreadyReturned
  /-- message contains `Cannot cancel transaction`. -/
  | cannotCancel
  /-- response `This fine has already been paid.` -/
  | alreadyPaid
deriving DecidableEq

/-- `createReservation` of `reservation.controller.js` (lines 46-150): the
transaction body, with `now` the server clock reading `new Date()`. -/
def createReservation (db : DB) (userId bookId : Nat) (now : Int) :
    Except ApiError (DB × Reservation) :=
  match findActiveUser db userId, findBook db bookId,
        (findUser db userId).bind (fun u => findPolicy db u.library_id) with
  | some user, some book, some policy =>
    if user.library_id ≠ book.library_id then .error .differentLibraries
    else if user.borrowed_book_ids.contains bookId then .error .cannotReserveBorrowed
    else
      -- fallback to 7 days when the policy's expiry is missing or ≤ 0
      let expiryDays := if policy.reservation_expiry_days ≤ 0 then 7
                        else policy.reservation_expiry_days
      -- expiresAt: copy of reservedAt, setDate(getDate() + expiryDays),
      -- then setHours(23, 59, 59, 999)
      let expiresAt := startOfDayUTC now + expiryDays * msPerDay + (msPerDay - 1)
      let created : Reservation :=
        { reservation_id := db.nextId, user_id := userId, book_id := bookId,
          reserved_at := now, expires_at := expiresAt, library_id := user.library_id }
      let db1 : DB :=
        { db with reservations := db.reservations ++ [created],
                  nextId := db.nextId + 1 }
      let db2 : DB := { db1 with books := db1.books.map (fun x =>
                    if x.book_id == bookId then
                      { x with reserved_copies := x.reserved_copies + 1,
                               available_copies := x.available_copies - 1 }
                    else x) }
      let db3 : DB := { db2 with users := db2.users.map (fun x =>
                    if x.user_id == userId then
                      { x with reserved_book_ids := x.reserved_book_ids ++ [bookId] }
                    else x) }
      .ok (db3, created)
  | _, _, _ => .error .notFound

/-- `deleteReservation` of `reservation.controller.js` (lines 271-338): the
cancel-reservation transaction body. -/
def deleteReservation (db : DB) (reservationId requestingUserId : Nat)
    (requestingUserRole : String) : Except ApiError DB :=
  match db.reservations.find? (fun r => r.reservation_id == reservationId) with
  | none => .error .notFound
  | some r =>
    if requestingUserRole == "member" && r.user_id != requestingUserId then
      .error .forbidden
    else
      let db1 : DB := { db with reservations :=
                    db.reservations.filter (fun x => x.reservation_id != r.reservation_id) }
      match findBook db1 r.book_id with
      | none => .error .notFound
      | some _ =>
        let db2 : DB := { db1 with books := db1.books.map (fun x =>
                      if x.book_id == r.book_id then
                        { x with reserved_copies := x.reserved_copies - 1,
                                 available_copies := x.available_copies + 1 }
                      else x) }
        let db3 : DB :=
          match findUser db2 r.user_id with
          | some u =>
            { db2 with users := db2.users.map (fun x =>
                if x.user_id == r.user_id then
                  { x with reserved_book_ids :=
                      u.reserved_book_ids.filter (fun id => id != r.book_id) }
                else x) }
          | none => db2
        .ok db3

/-- `borrowBook` of `borrowTransaction.controller.js` (part_006 lines
81-207): the transaction body, with `now` the `borrow_date` default. -/
def borrowBook (db : DB) (userId bookId : Nat) (now : Int) :
    Except ApiError (DB × BorrowTransaction) :=
  match findActiveUser db userId, findBook db bookId with
  | some user, some book =>
    let reservation := findReservationFor db userId bookId
    if user.library_id ≠ book.library_id then .error .differentLibraries
    else
      match findPolicy db user.library_id with
      | none => .error .notFound
      | some policy =>
        if user.borrowed_book_ids.contains bookId then .error .alreadyBorrowed
        else if policy.max_books_per_user ≤ (user.borrowed_book_ids.length : Int) then
          .error .limitReached
        else
          match reservation with
          | some r =>
            if book.reserved_copies ≤ 0 then .error .noReservedCopies
            else
              -- reservedDecrement is 1: the available decrement is 0 and the
              -- reserved decrement is 1
              let db1 : DB := { db with books := db.books.map (fun x =>
                            if x.book_id == bookId then
                              { x with available_copies := x.available_copies - 0,
                                       reserved_copies := x.reserved_copies - 1 }
                            else x) }
              let db2 : DB := { db1 with users := db1.users.map (fun x =>
                            if x.user_id == userId then
                              { x with borrowed_book_ids := x.borrowed_book_ids ++ [bookId],
                                       reserved_book_ids :=
                                         user.reserved_book_ids.filter (fun id => id != bookId) }
                            else x) }
              let db3 : DB := { db2 with reservations :=
                            db2.reservations.filter (fun x =>
                              x.reservation_id != r.reservation_id) }
              let created : BorrowTransaction :=
                { borrow_id := db.nextId, user_id := userId, book_id := bookId,
                  borrow_date := now, return_date := none, status := .requested }
              let db4 : DB :=
                { db3 with transactions := db3.transactions ++ [created],
                           nextId := db.nextId + 1 }
              .ok (db4, created)
          | none =>
            if book.available_copies ≤ 0 then .error .notAvailable
            else
              -- reservedDecrement is 0: the available decrement is 1 and the
              -- reserved decrement is 0
              let db1 : DB := { db with books := db.books.map (fun x =>
                            if x.book_id == bookId then
                              { x with available_copies := x.available_copies - 1,
                                       reserved_copies := x.reserved_copies - 0 }
                            else x) }
              let db2 : DB := { db1 with users := db1.users.map (fun x =>
                            if x.user_id == userId then
                              { x with borrowed_book_ids := x.borrowed_book_ids ++ [bookId] }
                            else x) }
              let created : BorrowTransaction :=
                { borrow_id := db.nextId, user_id := userId, book_id := bookId,
                  borrow_date := now, return_date := none, status := .requested }
              let db3 : DB :=
                { db2 with transactions := db2.transactions ++ [created],
                           nextId := db.nextId + 1 }
              .ok (db3, created)
  | _, _ => .error .notFound

/-- `returnBook` of `borrowTransaction.controller.js` (part_006 lines
216-331): the transaction body, with `now` the server clock `new Date()`
used as the return date. -/
def returnBook (db : DB) (borrowId requestingUserId : Nat)
    (requestingUserRole : String) (now : Int) :
    Except ApiError (DB × BorrowTransaction × Option Fine) :=
  match findTransaction db borrowId with
  | none => .error .notFound
  | some t =>
    match findUser db t.user_id, findBook db t.book_id with
    | some u, some _ =>
      if requestingUserRole == "Member" && t.user_id != requestingUserId then
        .error .forbidden
      else if t.status == .returned then .error .alreadyReturned
      else
        match findPolicy db u.library_id with
        | none => .error .notFound
        | some policy =>
          let returnDate := now
          let overdueDays :=
            calculateOverdueDays (some t.borrow_date) (some returnDate)
              (some policy.max_borrow_days)
          let fineGenerated : Option Fine :=
            if 0 < overdueDays then
              some { fine_id := db.nextId, borrow_id := t.borrow_id,
                     user_id := t.user_id, book_id := t.book_id,
                     library_id := u.library_id,
                     amount := overdueDays * policy.fine_per_day,
                     reason := "Returned " ++ toString overdueDays ++ " day(s) late.",
                     is_paid := false }
            else none
          let db1 : DB :=
            match fineGenerated with
            | some f => { db with fines := db.fines ++ [f], nextId := db.nextId + 1 }
            | none => db
          -- the source sets newStatus to overdue inside the fine branch and
          -- immediately overrides it back, so the persisted status is
          -- returned on both paths
          let newStatus := BorrowStatus.returned
          let updated := { t with status := newStatus, return_date := some returnDate }
          let db2 : DB := { db1 with transactions := db1.transactions.map (fun x =>
                        if x.borrow_id == borrowId then updated else x) }
          let db3 : DB := { db2 with books := db2.books.map (fun x =>
                        if x.book_id == t.book_id then
                          { x with available_copies := x.available_copies + 1 }
                        else x) }
          let db4 : DB := { db3 with users := db3.users.map (fun x =>
                        if x.user_id == t.user_id then
                          { x with borrowed_book_ids :=
                              u.borrowed_book_ids.filter (fun id => id != t.book_id) }
                        else x) }
          .ok (db4, updated, fineGenerated)
    | _, _ => .error .notFound

/-- `cancelBorrow` of `borrowTransaction.controller.js` (part_006 lines
468-551): the cancel-loan transaction body. -/
def cancelBorrow (db : DB) (borrowId requestingUserId : Nat)
    (requestingUserRole : String) : Except ApiError DB :=
  match findTransaction db borrowId with
  | none => .error .notFound
  | some t =>
    if requestingUserRole == "member" && t.user_id != requestingUserId then
      .error .forbidden
    else if t.status ≠ .requested then .error .cannotCancel
    else
      let db1 : DB := { db with transactions :=
                    db.transactions.filter (fun x => x.borrow_id != t.borrow_id) }
      match findBook db1 t.book_id with
      | none => .error .notFound
      | some _ =>
        let db2 : DB := { db1 with books := db1.books.map (fun x =>
                      if x.book_id == t.book_id then
                        { x with available_copies := x.available_copies + 1 }
                      else x) }
        let db3 : DB :=
          match findUser db t.user_id with
          | some u =>
            { db2 with users := db2.users.map (fun x =>
                if x.user_id == t.user_id then
                  { x with borrowed_book_ids :=
                      u.borrowed_book_ids.filter (fun id => id != t.book_id) }
                else x) }
          | none => db2
        .ok db3

/-- `markFineAsPaid` of `wishlist.controller.js` (lines 554-599). -/
def markFineAsPaid (db : DB) (fineId : Nat) : Except ApiError (DB × Fine) :=
  match findFine db fineId with
  | none => .error .notFound
  | some f =>
    if f.is_paid then .error .alreadyPaid
    else
      let updated := { f with is_paid := true }
      .ok ({ db with fines := db.fines.map (fun x =>
              if x.fine_id == fineId then { x with is_paid := true } else x) },
           updated)

/-- The `authorize(allowedRoles)` middleware of `auth.middleware.js`:
passes exactly when the requester's role (the lowercase `RoleType` value
read back from the database by `authenticate`) is in the list. -/
def authorizePasses (allowedRoles : List String) (role : String) : Bool :=
  allowedRoles.contains role

/-- HTTP status the `returnBook` catch block assigns to each error:
messages containing `already been marked` or `Forbidden` get 400,
Prisma `P2025` gets 404. -/
def returnErrorStatus (e : ApiError) : Nat :=
  match e with
  | .notFound => 404
  | _ => 400

/-- The `PUT /borrow-transactions/:borrowId/return` route: the
`authorize(['Member', 'Librarian'])` gate (403 on failure) followed by the
`returnBook` controller, whose outcome the catch block maps to a status.
Returns the HTTP status and the resulting database state. -/
def returnRoute (db : DB) (requestingUserId : Nat) (requestingUserRole : String)
    (borrowId : Nat) (now : Int) : Nat × DB :=
  if !(authorizePasses ["Member", "Librarian"] requestingUserRole) then (403, db)
  else
    match returnBook db borrowId requestingUserId requestingUserRole now with
    | .ok (db1, _, _) => (200, db1)
    | .error e => (returnErrorStatus e, db)

/-- The Copy Ledger invariant of the spec: both counters nonnegative and
their sum at most the total. -/
def bookInvariant (b : Book) : Prop :=
  0 ≤ b.available_copies ∧ 0 ≤ b.reserved_copies ∧
    b.available_copies + b.reserved_copies ≤ b.total_copies

instance (b : Book) : Decidable (bookInvariant b) := by
  unfold bookInvariant; infer_instance

/-- Decidable equality of transaction outcomes, for evaluating the
operations on concrete states. -/
instance exceptDecEq {e a : Type} [DecidableEq e] [DecidableEq a] :
    DecidableEq (Except e a) := fun x y =>
  match x, y with
  | .ok v, .ok w =>
    if h : v = w then isTrue (congrArg Except.ok h)
    else isFalse (fun hc => h (Except.ok.inj hc))
  | .error v, .error w =>
    if h : v = w then isTrue (congrArg Except.error h)
    else isFalse (fun hc => h (Except.error.inj hc))
  | .ok _, .error _ => isFalse (fun hc => Except.noConfusion hc)
  | .error _, .ok _ => isFalse (fun hc => Except.noConfusion hc)

/-- The fine row the return transaction creates when the computed overdue
count is positive (part_006 lines 264-275). -/
def lateFine (db : DB) (t : BorrowTransaction) (u : User) (p : Policy) (now : Int) : Fine :=
  { fine_id := db.nextId, borrow_id := t.borrow_id, user_id := t.user_id,
    book_id := t.book_id, library_id := u.library_id,
    amount := calculateOverdueDays (some t.borrow_date) (some now)
                (some p.max_borrow_days) * p.fine_per_day,
    reason := "Returned " ++ toString (calculateOverdueDays (some t.borrow_date)
                 (some now) (some p.max_borrow_days)) ++ " day(s) late.",
    is_paid := false }

/-! ### Concrete sample states used by the witnesses and counterexamples -/

/-- The standard policy of library 1 in the sample states. -/
def samplePolicy : Policy :=
  { library_id := 1, max_borrow_days := 14, fine_per_day := 100,
    max_books_per_user := 4, reservation_expiry_days := 7 }

/-- Book with no free and no reserved copies. -/
def resBook : Book :=
  { book_id := 10, library_id := 1, total_copies := 1,
    available_copies := 0, reserved_copies := 0 }

/-- State for reserving `resBook`: an active member of the same library who
holds nothing. -/
def resDB : DB :=
  { users := [{ user_id := 1, library_id := 1, is_active := true,
                borrowed_book_ids := [], reserved_book_ids := [] }],
    books := [resBook],
    policies := [samplePolicy],
    reservations := [], transactions := [], fines := [], nextId := 100 }

/-- `resBook` after the unguarded reservation counter update. -/
def resBookAfter : Book :=
  { resBook with available_copies := -1, reserved_copies := 1 }

/-- State for borrowing from a reservation while no copy is available:
user 1 holds the single active reservation on book 10, whose only copy is
reserved. -/
def borrowResDB : DB :=
  { users := [{ user_id := 1, library_id := 1, is_active := true,
                borrowed_book_ids := [], reserved_book_ids := [10] }],
    books := [{ book_id := 10, library_id := 1, total_copies := 1,
                available_copies := 0, reserved_copies := 1 }],
    policies := [samplePolicy],
    reservations := [{ reservation_id := 77, user_id := 1, book_id := 10,
                       reserved_at := 0, expires_at := 604799999, library_id := 1 }],
    transactions := [], fines := [], nextId := 200 }

/-- User 1 of the return samples, currently holding book 10. -/
def sampleUser : User :=
  { user_id := 1, library_id := 1, is_active := true,
    borrowed_book_ids := [10], reserved_book_ids := [] }

/-- Book 10 of the return samples. -/
def sampleBook : Book :=
  { book_id := 10, library_id := 1, total_copies := 3,
    available_copies := 2, reserved_copies := 0 }

/-- Loan 50: user 1 borrowed book 10 at time 0. -/
def returnLoan : BorrowTransaction :=
  { borrow_id := 50, user_id := 1, book_id := 10,
    borrow_date := 0, return_date := none, status := .borrowed }

/-- State for returning loan 50. -/
def returnDB : DB :=
  { users := [sampleUser], books := [sampleBook], policies := [samplePolicy],
    reservations := [], transactions := [returnLoan], fines := [], nextId := 300 }

/-- The fine generated by returning loan 50 twenty days after borrowing
under a 14-day policy: six days late at 1.00 per day. -/
def returnFine : Fine :=
  { fine_id := 300, borrow_id := 50, user_id := 1, book_id := 10, library_id := 1,
    amount := 600, reason := "Returned 6 day(s) late.", is_paid := false }

/-- Loan 50 as persisted by that return. -/
def returnTR : BorrowTransaction :=
  { borrow_id := 50, user_id := 1, book_id := 10, borrow_date := 0,
    return_date := some (20 * msPerDay), status := .returned }

/-- The state committed by that return. -/
def returnDBAfter : DB :=
  { users := [{ sampleUser with borrowed_book_ids := [] }],
    books := [{ sampleBook with available_copies := 3 }],
    policies := [samplePolicy], reservations := [],
    transactions := [returnTR], fines := [returnFine], nextId := 301 }

/-- The loan created by borrowing book 10 from the reservation sample. -/
def borrowResTR : BorrowTransaction :=
  { borrow_id := 200, user_id := 1, book_id := 10,
    borrow_date := 5, return_date := none, status := .requested }

/-- The state committed by borrowing book 10 from the reservation sample. -/
def borrowResAfter : DB :=
  { users := [{ user_id := 1, library_id := 1, is_active := true,
                borrowed_book_ids := [10], reserved_book_ids := [] }],
    books := [{ book_id := 10, library_id := 1, total_copies := 1,
                available_copies := 0 - 0, reserved_copies := 0 }],
    policies := [samplePolicy], reservations := [],
    transactions := [borrowResTR], fines := [], nextId := 201 }

/-- State for borrow-validation failures: user 1 is at the borrowing limit
and book 11 has no available copies for reservation-less user 2. -/
def limitDB : DB :=
  { users := [{ user_id := 1, library_id := 1, is_active := true,
                borrowed_book_ids := [20, 21, 22, 23], reserved_book_ids := [] },
              { user_id := 2, library_id := 1, is_active := true,
                borrowed_book_ids := [], reserved_book_ids := [] }],
    books := [{ book_id := 10, library_id := 1, total_copies := 3,
                available_copies := 3, reserved_copies := 0 },
              { book_id := 11, library_id := 1, total_copies := 2,
                available_copies := 0, reserved_copies := 0 }],
    policies := [samplePolicy],
    reservations := [], transactions := [], fines := [], nextId := 400 }

/-- Loan 50 already returned. -/
def returnedLoan : BorrowTransaction :=
  { borrow_id := 50, user_id := 1, book_id := 10,
    borrow_date := 0, return_date := some 100, status := .returned }

/-- State with loan 50 already returned. -/
def returnedDB : DB :=
  { returnDB with transactions := [returnedLoan] }

/-- Loan 50 of the cancel sample, still in the `requested` state. -/
def cancelLoan : BorrowTransaction :=
  { borrow_id := 50, user_id := 1, book_id := 10,
    borrow_date := 0, return_date := none, status := .requested }

/-- Loan 51 of the cancel sample, already progressed to `borrowed`. -/
def cancelLoanLate : BorrowTransaction :=
  { borrow_id := 51, user_id := 1, book_id := 12,
    borrow_date := 0, return_date := none, status := .borrowed }

/-- The user of the cancel sample. -/
def cancelUser : User :=
  { user_id := 1, library_id := 1, is_active := true,
    borrowed_book_ids := [10, 12], reserved_book_ids := [] }

/-- State for cancelling loans: loan 50 is still requested, loan 51 has
progressed to borrowed. -/
def cancelDB : DB :=
  { users := [cancelUser],
    books := [{ book_id := 10, library_id := 1, total_copies := 3,
                available_copies := 1, reserved_copies := 0 },
              { book_id := 12, library_id := 1, total_copies := 1,
                available_copies := 0, reserved_copies := 0 }],
    policies := [samplePolicy],
    reservations := [],
    transactions := [cancelLoan, cancelLoanLate],
    fines := [], nextId := 500 }

/-- An unpaid fine. -/
def unpaidFine : Fine :=
  { fine_id := 70, borrow_id := 50, user_id := 1, book_id := 10,
    library_id := 1, amount := 600, reason := "late", is_paid := false }

/-- An already-paid fine. -/
def paidFine : Fine :=
  { fine_id := 71, borrow_id := 51, user_id := 1, book_id := 12,
    library_id := 1, amount := 200, reason := "late", is_paid := true }

/-- State with one unpaid and one already-paid fine. -/
def fineDB : DB :=
  { users := [], books := [], policies := [], reservations := [], transactions := [],
    fines := [unpaidFine, paidFine], nextId := 600 }

/-- Loan 50 of the route sample, owned by user 2. -/
def routeLoan : BorrowTransaction :=
  { borrow_id := 50, user_id := 2, book_id := 10,
    borrow_date := 0, return_date := none, status := .borrowed }

/-- State where loan 50 belongs to user 2, for a return request by user 1. -/
def routeDB : DB :=
  { returnDB with
      users := [{ user_id := 1, library_id := 1, is_active := true,
                  borrowed_book_ids := [], reserved_book_ids := [] },
                { user_id := 2, library_id := 1, is_active := true,
                  borrowed_book_ids := [10], reserved_book_ids := [] }],
      transactions := [routeLoan] }

/-- State whose library policy has a degenerate zero `max_borrow_days`. -/
def zeroPolicyDB : DB :=
  { returnDB with policies := [{ samplePolicy with max_borrow_days := 0 }] }

/-- Loan 50 as persisted by a return under the degenerate policy. -/
def zeroTR : BorrowTransaction :=
  { borrow_id := 50, user_id := 1, book_id := 10, borrow_date := 0,
    return_date := some (100 * msPerDay), status := .returned }

/-- The state committed by a return under the degenerate policy: no fine,
however late the return. -/
def zeroPolicyAfter : DB :=
  { users := [{ sampleUser with borrowed_book_ids := [] }],
    books := [{ sampleBook with available_copies := 3 }],
    policies := [{ samplePolicy with max_borrow_days := 0 }],
    reservations := [], transactions := [zeroTR], fines := [], nextId := 300 }

/-! ### Generic list helpers for row updates -/

/-- A targeted row update (`tx.<table>.update({ where })`, modelled as a
`map` that rewrites the selected rows) commutes with `find?` when the
update preserves the selection predicate. -/
theorem find?_map_update {α : Type} (l : List α) (p : α → Bool) (f : α → α)
    (hpres : ∀ a, p a = true → p (f a) = true) :
    (l.map (fun a => if p a then f a else a)).find? p = (l.find? p).map f := by
  induction l with
  | nil => rfl
  | cons y ys ih =>
    by_cases hy : p y = true
    · simp only [List.map_cons]
      rw [if_pos hy, List.find?_cons_of_pos _ (hpres y hy),
          List.find?_cons_of_pos _ hy]
      rfl
    · simp only [List.map_cons]
      rw [if_neg hy, List.find?_cons_of_neg _ hy, List.find?_cons_of_neg _ hy]
      exact ih

/-- In a table whose key column has no duplicates, any row carrying the
looked-up key is the row `find?` returns. -/
theorem find?_key_unique {α κ : Type} [DecidableEq κ] (l : List α) (key : α → κ)
    (k : κ) {b x : α}
    (hnd : (l.map key).Nodup)
    (hfind : l.find? (fun a => key a == k) = some b)
    (hx : x ∈ l) (hkey : key x = k) : x = b := by
  have hb := List.mem_of_find?_eq_some hfind
  have hbk : key b = k := by simpa using List.find?_some hfind
  exact List.inj_on_of_nodup_map hnd hx hb (by rw [hkey, hbk])

/-! ### The overdue computation agrees with the spec formula -/

/-- For a positive borrowing period the code's guarded computation equals
the spec's closed formula with end-of-day due-time semantics. -/
theorem calculateOverdueDays_eq_spec (bd rd m : Int) (hm : 0 < m) :
    calculateOverdueDays (some bd) (some rd) (some m) = specOverdueDays bd rd m := by
  have hday : (0 : Int) < msPerDay := by norm_num [msPerDay]
  have hsplit : startOfDayUTC (bd + m * msPerDay) = startOfDayUTC bd + m * msPerDay := by
    unfold startOfDayUTC
    rw [Int.fdiv_eq_ediv _ (le_of_lt hday), Int.fdiv_eq_ediv _ (le_of_lt hday),
        Int.add_mul_ediv_right _ _ (ne_of_gt hday), add_mul]
  simp only [calculateOverdueDays, specOverdueDays, endOfDayUTC]
  rw [hsplit, if_neg (not_le.mpr hm)]
  by_cases h : rd ≤ startOfDayUTC bd + m * msPerDay + (msPerDay - 1)
  · rw [if_pos h]
    have h1 : 0 ≤ (-(rd - (startOfDayUTC bd + m * msPerDay + (msPerDay - 1)))).fdiv msPerDay :=
      Int.fdiv_nonneg (by omega) (le_of_lt hday)
    have h2 : ceilDivMs (rd - (startOfDayUTC bd + m * msPerDay + (msPerDay - 1))) ≤ 0 := by
      unfold ceilDivMs; omega
    exact (max_eq_left h2).symm
  · rw [if_neg h]

/-! ### Success-path characterisation of the return transaction -/

/-- What a committed `returnBook` transaction wrote: the loan's terminal
status and return date, the row rewrites of the book and user tables, and
the fine append (exactly when the overdue count is positive). -/
theorem returnBook_parts (db : DB) (borrowId ruid : Nat) (role : String) (now : Int)
    (dbR : DB) (tR : BorrowTransaction) (fo : Option Fine)
    (t : BorrowTransaction) (u : User) (b : Book) (p : Policy)
    (ht : findTransaction db borrowId = some t)
    (hu : findUser db t.user_id = some u)
    (hb : findBook db t.book_id = some b)
    (hp : findPolicy db u.library_id = some p)
    (hok : returnBook db borrowId ruid role now = .ok (dbR, tR, fo)) :
    tR = { t with status := .returned, return_date := some now } ∧
    dbR.transactions = db.transactions.map (fun x =>
      if x.borrow_id == borrowId then
        { t with status := BorrowStatus.returned, return_date := some now } else x) ∧
    dbR.books = db.books.map (fun x =>
      if x.book_id == t.book_id then
        { x with available_copies := x.available_copies + 1 } else x) ∧
    dbR.users = db.users.map (fun x =>
      if x.user_id == t.user_id then
        { x with borrowed_book_ids :=
            u.borrowed_book_ids.filter (fun id => id != t.book_id) } else x) ∧
    (0 < calculateOverdueDays (some t.borrow_date) (some now) (some p.max_borrow_days) →
      fo = some (lateFine db t u p now) ∧
      dbR.fines = db.fines ++ [lateFine db t u p now]) ∧
    (calculateOverdueDays (some t.borrow_date) (some now) (some p.max_borrow_days) ≤ 0 →
      fo = none ∧ dbR.fines = db.fines) := by
  unfold returnBook at hok
  simp only [ht, hu, hb, hp] at hok
  split at hok
  · simp at hok
  · split at hok
    · simp at hok
    · by_cases hod :
        0 < calculateOverdueDays (some t.borrow_date) (some now) (some p.max_borrow_days)
      · simp only [hod, if_true] at hok
        simp only [Except.ok.injEq, Prod.mk.injEq] at hok
        obtain ⟨h1, h2, h3⟩ := hok
        subst h1; subst h2; subst h3
        refine ⟨rfl, rfl, rfl, rfl, fun _ => ⟨rfl, rfl⟩, fun h => absurd hod (not_lt.mpr h)⟩
      · simp only [if_neg hod] at hok
        simp only [Except.ok.injEq, Prod.mk.injEq] at hok
        obtain ⟨h1, h2, h3⟩ := hok
        subst h1; subst h2; subst h3
        exact ⟨rfl, rfl, rfl, rfl, fun h => absurd h hod, fun _ => ⟨rfl, rfl⟩⟩

/-- A return on or before the end-of-day due instant yields a zero
overdue count under the spec formula. -/
theorem specOverdueDays_due (bd rd m : Int)
    (h : rd ≤ endOfDayUTC (bd + m * msPerDay)) :
    specOverdueDays bd rd m = 0 := by
  have hday : (0 : Int) < msPerDay := by norm_num [msPerDay]
  have h1 : 0 ≤ (-(rd - endOfDayUTC (bd + m * msPerDay))).fdiv msPerDay :=
    Int.fdiv_nonneg (by omega) (le_of_lt hday)
  have h2 : ceilDivMs (rd - endOfDayUTC (bd + m * msPerDay)) ≤ 0 := by
    unfold ceilDivMs; omega
  unfold specOverdueDays
  exact max_eq_left h2

/-- C3: for every return of a loan, the overdue-day count equals
`max(0, ceil((returnDate − endOfDay(borrowDate + max_borrow_days)) / 1 day))`
— so a return before midnight of the due day is never overdue — and exactly
one Fine with `amount = overdueDays × fine_per_day` and `is_paid = false`
is appended if and only if `overdueDays > 0`. -/
theorem c3_return_overdue_fine (db : DB) (borrowId ruid : Nat) (role : String)
    (now : Int) (dbR : DB) (tR : BorrowTransaction) (fo : Option Fine)
    (t : BorrowTransaction) (u : User) (b : Book) (p : Policy)
    (ht : findTransaction db borrowId = some t)
    (hu : findUser db t.user_id = some u)
    (hb : findBook db t.book_id = some b)
    (hp : findPolicy db u.library_id = some p)
    (hm : 0 < p.max_borrow_days)
    (hok : returnBook db borrowId ruid role now = .ok (dbR, tR, fo)) :
    calculateOverdueDays (some t.borrow_date) (some now) (some p.max_borrow_days) =
      specOverdueDays t.borrow_date now p.max_borrow_days ∧
    (now ≤ endOfDayUTC (t.borrow_date + p.max_borrow_days * msPerDay) →
      calculateOverdueDays (some t.borrow_date) (some now) (some p.max_borrow_days) = 0) ∧
    (0 < calculateOverdueDays (some t.borrow_date) (some now) (some p.max_borrow_days) →
      fo = some (lateFine db t u p now) ∧
      (lateFine db t u p now).amount =
        calculateOverdueDays (some t.borrow_date) (some now)
          (some p.max_borrow_days) * p.fine_per_day ∧
      (lateFine db t u p now).is_paid = false ∧
      dbR.fines = db.fines ++ [lateFine db t u p now]) ∧
    (calculateOverdueDays (some t.borrow_date) (some now) (some p.max_borrow_days) = 0 →
      fo = none ∧ dbR.fines = db.fines) := by
  obtain ⟨-, -, -, -, hpos, hnone⟩ :=
    returnBook_parts db borrowId ruid role now dbR tR fo t u b p ht hu hb hp hok
  refine ⟨calculateOverdueDays_eq_spec t.borrow_date now p.max_borrow_days hm,
          ?_, ?_, ?_⟩
  · intro hdue
    rw [calculateOverdueDays_eq_spec t.borrow_date now p.max_borrow_days hm]
    exact specOverdueDays_due t.borrow_date now p.max_borrow_days hdue
  · intro hod
    obtain ⟨h1, h2⟩ := hpos hod
    exact ⟨h1, rfl, rfl, h2⟩
  · intro hod
    exact hnone (le_of_eq hod)

/-- C3 witness: loan 50, borrowed at time 0 and returned 20 days later
under the 14-day, 1.00-per-day sample policy, is six days overdue and the
code agrees with the spec formula there; the committed state carries the
6.00 unpaid fine. -/
theorem c3_return_overdue_fine_witness :
    0 < samplePolicy.max_borrow_days ∧
    returnBook returnDB 50 1 "librarian" (20 * msPerDay) =
      .ok (returnDBAfter, returnTR, some returnFine) ∧
    calculateOverdueDays (some returnLoan.borrow_date) (some (20 * msPerDay))
        (some samplePolicy.max_borrow_days) = 6 ∧
    returnFine.amount = 6 * samplePolicy.fine_per_day ∧ returnFine.is_paid = false ∧
    calculateOverdueDays (some returnLoan.borrow_date) (some (20 * msPerDay))
        (some samplePolicy.max_borrow_days) =
      specOverdueDays returnLoan.borrow_date (20 * msPerDay)
        samplePolicy.max_borrow_days :=
  ⟨by decide, by decide, by decide, by decide, by decide,
   (c3_return_overdue_fine returnDB 50 1 "librarian" (20 * msPerDay)
      returnDBAfter returnTR (some returnFine) returnLoan sampleUser sampleBook
      samplePolicy (by decide) (by decide) (by decide) (by decide) (by decide)
      (by decide)).1⟩

/-- C5: every successful return sets the loan's `return_date` to the
current time, persists status `returned` (`overdue` is never the persisted
final state), increments `available_copies` by exactly 1 regardless of
whether the loan originated from a reservation, and removes the book from
the user's `borrowed_book_ids`. -/
theorem c5_return_persisted_state (db : DB) (borrowId ruid : Nat) (role : String)
    (now : Int) (dbR : DB) (tR : BorrowTransaction) (fo : Option Fine)
    (t : BorrowTransaction) (u : User) (b : Book) (p : Policy)
    (ht : findTransaction db borrowId = some t)
    (hu : findUser db t.user_id = some u)
    (hb : findBook db t.book_id = some b)
    (hp : findPolicy db u.library_id = some p)
    (hok : returnBook db borrowId ruid role now = .ok (dbR, tR, fo)) :
    tR.return_date = some now ∧ tR.status = .returned ∧
    findTransaction dbR borrowId = some tR ∧
    findBook dbR t.book_id =
      some { b with available_copies := b.available_copies + 1 } ∧
    findUser dbR t.user_id =
      some { u with borrowed_book_ids :=
               u.borrowed_book_ids.filter (fun id => id != t.book_id) } := by
  obtain ⟨htR, htrans, hbooks, husers, -, -⟩ :=
    returnBook_parts db borrowId ruid role now dbR tR fo t u b p ht hu hb hp hok
  have ht' : db.transactions.find? (fun x => x.borrow_id == borrowId) = some t := ht
  have hu' : db.users.find? (fun x => x.user_id == t.user_id) = some u := hu
  have hb' : db.books.find? (fun x => x.book_id == t.book_id) = some b := hb
  have hid := List.find?_some ht'
  refine ⟨by rw [htR], by rw [htR], ?_, ?_, ?_⟩
  · show dbR.transactions.find? (fun x => x.borrow_id == borrowId) = some tR
    rw [htrans,
        find?_map_update db.transactions (fun x => x.borrow_id == borrowId)
          (fun _ => { t with status := BorrowStatus.returned, return_date := some now })
          (fun a _ => hid),
        ht', htR]
    rfl
  · show dbR.books.find? (fun x => x.book_id == t.book_id) =
      some { b with available_copies := b.available_copies + 1 }
    rw [hbooks,
        find?_map_update db.books (fun x => x.book_id == t.book_id)
          (fun x => { x with available_copies := x.available_copies + 1 })
          (fun a ha => ha),
        hb']
    rfl
  · show dbR.users.find? (fun x => x.user_id == t.user_id) =
      some { u with borrowed_book_ids :=
               u.borrowed_book_ids.filter (fun id => id != t.book_id) }
    rw [husers,
        find?_map_update db.users (fun x => x.user_id == t.user_id)
          (fun x => { x with borrowed_book_ids :=
                        u.borrowed_book_ids.filter (fun id => id != t.book_id) })
          (fun a ha => ha),
        hu']
    rfl

/-- C5 witness: returning loan 50 from the sample state persists status
`returned`, stamps the return date, restores one available copy and clears
the user's borrowed list. -/
theorem c5_return_persisted_state_witness :
    returnBook returnDB 50 1 "librarian" (20 * msPerDay) =
      .ok (returnDBAfter, returnTR, some returnFine) ∧
    returnTR.return_date = some (20 * msPerDay) ∧
    returnTR.status = .returned ∧
    findTransaction returnDBAfter 50 = some returnTR :=
  ⟨by decide, by decide, by decide,
   (c5_return_persisted_state returnDB 50 1 "librarian" (20 * msPerDay)
      returnDBAfter returnTR (some returnFine) returnLoan sampleUser sampleBook
      samplePolicy (by decide) (by decide) (by decide) (by decide)
      (by decide)).2.2.1⟩

/-- C6: a loan that is already `returned` is rejected on a second return
with the already-returned `InvalidState` failure; the transaction aborts
before any write, so no second fine is created and the loan, book counters
and user lists are unchanged. -/
theorem c6_double_return_rejected (db : DB) (borrowId ruid : Nat) (role : String)
    (now : Int) (t : BorrowTransaction) (u : User) (b : Book)
    (ht : findTransaction db borrowId = some t)
    (hu : findUser db t.user_id = some u)
    (hb : findBook db t.book_id = some b)
    (hro : (role == "Member" && t.user_id != ruid) = false)
    (hst : t.status = .returned) :
    returnBook db borrowId ruid role now = .error .alreadyReturned := by
  unfold returnBook
  simp only [ht, hu, hb, hro, hst]
  simp

/-- C6 witness: a second return of already-returned loan 50 is rejected. -/
theorem c6_double_return_rejected_witness :
    findTransaction returnedDB 50 = some returnedLoan ∧
    returnedLoan.status = .returned ∧
    returnBook returnedDB 50 1 "librarian" 100 = .error .alreadyReturned :=
  ⟨by decide, by decide,
   c6_double_return_rejected returnedDB 50 1 "librarian" 100 returnedLoan
     sampleUser sampleBook (by decide) (by decide) (by decide) (by decide)
     (by decide)⟩

/-- C10: the overdue computation yields 0 whenever the borrow date or the
policy bound is missing, zero or negative, and a return under such a
policy creates no fine, no matter how long ago the loan was borrowed. -/
theorem c10_degenerate_policy_no_fine :
    (∀ rd m, calculateOverdueDays none rd m = 0) ∧
    (∀ bd rd, calculateOverdueDays bd rd none = 0) ∧
    (∀ bd rd m, m ≤ 0 → calculateOverdueDays (some bd) (some rd) (some m) = 0) ∧
    (∀ db borrowId ruid role now dbR tR fo t u b p,
      findTransaction db borrowId = some t →
      findUser db t.user_id = some u →
      findBook db t.book_id = some b →
      findPolicy db u.library_id = some p →
      p.max_borrow_days ≤ 0 →
      returnBook db borrowId ruid role now = .ok (dbR, tR, fo) →
      fo = none ∧ dbR.fines = db.fines) := by
  have hzero : ∀ bd rd m, m ≤ 0 →
      calculateOverdueDays (some bd) (some rd) (some m) = 0 := by
    intro bd rd m hm
    simp only [calculateOverdueDays]
    rw [if_pos hm]
  refine ⟨?_, ?_, hzero, ?_⟩
  · intro rd m; cases rd <;> cases m <;> rfl
  · intro bd rd; cases bd <;> cases rd <;> rfl
  · intro db borrowId ruid role now dbR tR fo t u b p ht hu hb hp hm hok
    obtain ⟨-, -, -, -, -, hnone⟩ :=
      returnBook_parts db borrowId ruid role now dbR tR fo t u b p ht hu hb hp hok
    exact hnone (le_of_eq (hzero t.borrow_date now p.max_borrow_days hm))

/-- C10 witness: under the zero `max_borrow_days` policy a return one
hundred days after borrowing creates no fine. -/
theorem c10_degenerate_policy_no_fine_witness :
    ({ samplePolicy with max_borrow_days := 0 } : Policy).max_borrow_days ≤ 0 ∧
    calculateOverdueDays none (some 5) (some 14) = 0 ∧
    calculateOverdueDays (some 0) (some (100 * msPerDay)) (some 0) = 0 ∧
    returnBook zeroPolicyDB 50 1 "librarian" (100 * msPerDay) =
      .ok (zeroPolicyAfter, zeroTR, none) ∧
    zeroPolicyAfter.fines = zeroPolicyDB.fines :=
  ⟨by decide, c10_degenerate_policy_no_fine.1 (some 5) (some 14),
   c10_degenerate_policy_no_fine.2.2.1 0 (100 * msPerDay) 0 (by decide),
   by decide,
   (c10_degenerate_policy_no_fine.2.2.2 zeroPolicyDB 50 1 "librarian"
      (100 * msPerDay) zeroPolicyAfter zeroTR none returnLoan sampleUser
      sampleBook { samplePolicy with max_borrow_days := 0 } (by decide)
      (by decide) (by decide) (by decide) (by decide) (by decide)).2⟩

/-! ### Success-path characterisation of the reservation-consuming borrow -/

/-- What a committed `borrowBook` transaction wrote when the user held a
reservation: the reserved counter decrement (available decremented by 0),
the user-list moves, the reservation delete and the created loan. -/
theorem borrowBook_res_parts (db : DB) (uid bid : Nat) (now : Int)
    (dbB : DB) (tr : BorrowTransaction) (u : User) (b : Book) (r : Reservation)
    (hu : findActiveUser db uid = some u)
    (hb : findBook db bid = some b)
    (hr : findReservationFor db uid bid = some r)
    (hok : borrowBook db uid bid now = .ok (dbB, tr)) :
    tr = { borrow_id := db.nextId, user_id := uid, book_id := bid,
           borrow_date := now, return_date := none, status := .requested } ∧
    dbB.books = db.books.map (fun x =>
      if x.book_id == bid then
        { x with available_copies := x.available_copies - 0,
                 reserved_copies := x.reserved_copies - 1 } else x) ∧
    dbB.users = db.users.map (fun x =>
      if x.user_id == uid then
        { x with borrowed_book_ids := x.borrowed_book_ids ++ [bid],
                 reserved_book_ids :=
                   u.reserved_book_ids.filter (fun id => id != bid) } else x) ∧
    dbB.reservations =
      db.reservations.filter (fun x => x.reservation_id != r.reservation_id) ∧
    dbB.transactions = db.transactions ++ [tr] ∧
    0 < b.reserved_copies := by
  unfold borrowBook at hok
  simp only [hu, hb, hr] at hok
  split at hok
  · simp at hok
  · split at hok
    · simp at hok
    · split at hok
      · simp at hok
      · split at hok
        · simp at hok
        · split at hok
          · simp at hok
          · simp only [Except.ok.injEq, Prod.mk.injEq] at hok
            obtain ⟨hdb, htr⟩ := hok
            subst hdb; subst htr
            refine ⟨rfl, rfl, rfl, rfl, rfl, by omega⟩

/-- C2: for every user holding an active reservation for a book who passes
the library, duplicate-hold and borrow-limit checks, borrow decrements
`reserved_copies` by 1 and leaves `available_copies` unchanged (even when
`available_copies = 0`, provided `reserved_copies > 0`), deletes that
reservation, moves the book from the user's reserved list to the borrowed
list, and creates a Loan in `requested` status. -/
theorem c2_borrow_consumes_reservation (db : DB) (uid bid : Nat) (now : Int)
    (dbB : DB) (tr : BorrowTransaction) (u : User) (b : Book) (r : Reservation)
    (hu : findActiveUser db uid = some u)
    (hu2 : findUser db uid = some u)
    (hb : findBook db bid = some b)
    (hr : findReservationFor db uid bid = some r)
    (hok : borrowBook db uid bid now = .ok (dbB, tr)) :
    findBook dbB bid = some { b with reserved_copies := b.reserved_copies - 1 } ∧
    findUser dbB uid =
      some { u with borrowed_book_ids := u.borrowed_book_ids ++ [bid],
                    reserved_book_ids :=
                      u.reserved_book_ids.filter (fun id => id != bid) } ∧
    dbB.reservations =
      db.reservations.filter (fun x => x.reservation_id != r.reservation_id) ∧
    tr.status = .requested ∧ tr.user_id = uid ∧ tr.book_id = bid ∧
    dbB.transactions = db.transactions ++ [tr] := by
  obtain ⟨htr, hbooks, husers, hres, htrans, -⟩ :=
    borrowBook_res_parts db uid bid now dbB tr u b r hu hb hr hok
  have hb' : db.books.find? (fun x => x.book_id == bid) = some b := hb
  have hu' : db.users.find? (fun x => x.user_id == uid) = some u := hu2
  refine ⟨?_, ?_, hres, by rw [htr], by rw [htr], by rw [htr], htrans⟩
  · show dbB.books.find? (fun x => x.book_id == bid) =
      some { b with reserved_copies := b.reserved_copies - 1 }
    rw [hbooks,
        find?_map_update db.books (fun x => x.book_id == bid)
          (fun x => { x with available_copies := x.available_copies - 0,
                             reserved_copies := x.reserved_copies - 1 })
          (fun a ha => ha),
        hb']
    simp
  · show dbB.users.find? (fun x => x.user_id == uid) =
      some { u with borrowed_book_ids := u.borrowed_book_ids ++ [bid],
                    reserved_book_ids :=
                      u.reserved_book_ids.filter (fun id => id != bid) }
    rw [husers,
        find?_map_update db.users (fun x => x.user_id == uid)
          (fun x => { x with borrowed_book_ids := x.borrowed_book_ids ++ [bid],
                             reserved_book_ids :=
                               u.reserved_book_ids.filter (fun id => id != bid) })
          (fun a ha => ha),
        hu']
    rfl

/-- C2 witness: user 1 borrows book 10 through their reservation while
`available_copies = 0`: the reserved copy is consumed, the reservation row
disappears, the loan is created in `requested` status. -/
theorem c2_borrow_consumes_reservation_witness :
    findReservationFor borrowResDB 1 10 =
      some { reservation_id := 77, user_id := 1, book_id := 10,
             reserved_at := 0, expires_at := 604799999, library_id := 1 } ∧
    (findBook borrowResDB 10).map (fun x => x.available_copies) = some 0 ∧
    borrowBook borrowResDB 1 10 5 = .ok (borrowResAfter, borrowResTR) ∧
    borrowResTR.status = .requested ∧
    borrowResAfter.reservations = [] :=
  ⟨by decide, by decide, by decide, by decide,
   by
    have h :=
      (c2_borrow_consumes_reservation borrowResDB 1 10 5 borrowResAfter borrowResTR
        { user_id := 1, library_id := 1, is_active := true,
          borrowed_book_ids := [], reserved_book_ids := [10] }
        { book_id := 10, library_id := 1, total_copies := 1,
          available_copies := 0, reserved_copies := 1 }
        { reservation_id := 77, user_id := 1, book_id := 10,
          reserved_at := 0, expires_at := 604799999, library_id := 1 }
        (by decide) (by decide) (by decide) (by decide) (by decide)).2.2.1
    rw [h]; decide⟩

/-- C1 counterexample: the Copy Ledger invariant holds for `resBook`
(`0 + 0 ≤ 1`), yet `createReservation` on it succeeds — no
`InvariantViolation` exists anywhere in the code — and commits
`available_copies = -1`, violating both `0 ≤ available_copies` and the
claim that a violating counter mutation is not applied. -/
theorem c1_counterexample :
    bookInvariant resBook ∧
    (createReservation resDB 1 10 0).toOption.map (fun out => findBook out.1 10) =
      some (some resBookAfter) ∧
    resBookAfter.available_copies = -1 ∧
    ¬ bookInvariant resBookAfter := by decide

/-- C1 amended: of the five core operations only `borrowBook` guards its
counter mutations: when every book satisfies the Copy Ledger invariant and
book ids are unique, a committed borrow preserves the invariant on every
book, and the guarded decrements fail (with a 400-mapped error, there
being no `InvariantViolation` in the code) rather than commit a violating
state.  (`createReservation`, `deleteReservation`, `returnBook` and
`cancelBorrow` mutate counters unguarded — see the counterexample.) -/
theorem c1_amended_borrow_preserves_invariant (db : DB) (uid bid : Nat) (now : Int)
    (dbB : DB) (tr : BorrowTransaction)
    (hnd : (db.books.map (fun x => x.book_id)).Nodup)
    (hinv : ∀ x ∈ db.books, bookInvariant x)
    (hok : borrowBook db uid bid now = .ok (dbB, tr)) :
    ∀ x ∈ dbB.books, bookInvariant x := by
  unfold borrowBook at hok
  cases hu : findActiveUser db uid with
  | none => simp [hu] at hok
  | some u =>
  cases hb : findBook db bid with
  | none => simp [hu, hb] at hok
  | some b =>
  have hb' : db.books.find? (fun x => x.book_id == bid) = some b := hb
  have hbmem : b ∈ db.books := List.mem_of_find?_eq_some hb'
  have hbinv := hinv b hbmem
  cases hr : findReservationFor db uid bid with
  | some r =>
    simp only [hu, hb, hr] at hok
    split at hok
    · simp at hok
    · split at hok
      · simp at hok
      · split at hok
        · simp at hok
        · split at hok
          · simp at hok
          · split at hok
            · simp at hok
            · rename_i hres
              simp only [Except.ok.injEq, Prod.mk.injEq] at hok
              obtain ⟨hdb, -⟩ := hok
              subst hdb
              intro x hx
              obtain ⟨a, ha, rfl⟩ := List.mem_map.1 hx
              by_cases hpa : (a.book_id == bid) = true
              · have hab : a = b :=
                  find?_key_unique db.books (fun (x : Book) => x.book_id) bid
                    hnd hb' ha (by simpa using hpa)
                subst hab
                rw [if_pos hpa]
                unfold bookInvariant at hbinv ⊢
                dsimp only
                omega
              · rw [if_neg hpa]
                exact hinv a ha
  | none =>
    simp only [hu, hb, hr] at hok
    split at hok
    · simp at hok
    · split at hok
      · simp at hok
      · split at hok
        · simp at hok
        · split at hok
          · simp at hok
          · split at hok
            · simp at hok
            · rename_i havail
              simp only [Except.ok.injEq, Prod.mk.injEq] at hok
              obtain ⟨hdb, -⟩ := hok
              subst hdb
              intro x hx
              obtain ⟨a, ha, rfl⟩ := List.mem_map.1 hx
              by_cases hpa : (a.book_id == bid) = true
              · have hab : a = b :=
                  find?_key_unique db.books (fun (x : Book) => x.book_id) bid
                    hnd hb' ha (by simpa using hpa)
                subst hab
                rw [if_pos hpa]
                unfold bookInvariant at hbinv ⊢
                dsimp only
                omega
              · rw [if_neg hpa]
                exact hinv a ha

/-- C1 amended witness: the borrow that consumes the sample reservation
starts from an invariant-satisfying state and commits one. -/
theorem c1_amended_borrow_preserves_invariant_witness :
    ((borrowResDB.books.map (fun x => x.book_id)).Nodup ∧
      (∀ x ∈ borrowResDB.books, bookInvariant x) ∧
      borrowBook borrowResDB 1 10 5 = .ok (borrowResAfter, borrowResTR)) ∧
    ∀ x ∈ borrowResAfter.books, bookInvariant x :=
  ⟨⟨by decide, by decide, by decide⟩,
   c1_amended_borrow_preserves_invariant borrowResDB 1 10 5 borrowResAfter
     borrowResTR (by decide) (by decide) (by decide)⟩

/-- C4: borrow fails before any mutation — the transaction aborts, so book
counters, user lists, loans and reservations keep their pre-state —
whenever the user and book belong to different libraries, the user already
holds the book, the user's borrowed count has reached
`max_books_per_user`, or the user holds no reservation and
`available_copies ≤ 0`.  (The code measures the open-loan count by the
denormalized `borrowed_book_ids` list.) -/
theorem c4_borrow_validation_failures (db : DB) (uid bid : Nat) (now : Int)
    (u : User) (b : Book)
    (hu : findActiveUser db uid = some u)
    (hb : findBook db bid = some b) :
    (u.library_id ≠ b.library_id →
      borrowBook db uid bid now = .error .differentLibraries) ∧
    (∀ p, findPolicy db u.library_id = some p → u.library_id = b.library_id →
      (u.borrowed_book_ids.contains bid = true →
        borrowBook db uid bid now = .error .alreadyBorrowed) ∧
      (u.borrowed_book_ids.contains bid = false →
        p.max_books_per_user ≤ (u.borrowed_book_ids.length : Int) →
        borrowBook db uid bid now = .error .limitReached) ∧
      (u.borrowed_book_ids.contains bid = false →
        (u.borrowed_book_ids.length : Int) < p.max_books_per_user →
        findReservationFor db uid bid = none →
        b.available_copies ≤ 0 →
        borrowBook db uid bid now = .error .notAvailable)) := by
  constructor
  · intro hlib
    unfold borrowBook
    simp only [hu, hb]
    rw [if_pos hlib]
  · intro p hp hlib
    refine ⟨?_, ?_, ?_⟩
    · intro hcont
      unfold borrowBook
      simp only [hu, hb, hp]
      rw [if_neg (by simp [hlib]), if_pos hcont]
    · intro hcont hlim
      unfold borrowBook
      simp only [hu, hb, hp]
      rw [if_neg (by simp [hlib]), if_neg (by simpa using hcont), if_pos hlim]
    · intro hcont hlim hres havail
      unfold borrowBook
      simp only [hu, hb, hp, hres]
      rw [if_neg (by simp [hlib]), if_neg (by simpa using hcont),
          if_neg (not_le.mpr hlim), if_pos havail]

/-- C4 witness: user 1, already at the four-loan limit of the sample
policy, is rejected with the borrowing-limit failure; reservation-less
user 2 is rejected on the zero-available book 11. -/
theorem c4_borrow_validation_failures_witness :
    (4 : Int) ≤ 4 ∧
    borrowBook limitDB 1 10 0 = .error .limitReached ∧
    borrowBook limitDB 2 11 0 = .error .notAvailable :=
  ⟨by decide,
   ((c4_borrow_validation_failures limitDB 1 10 0
      { user_id := 1, library_id := 1, is_active := true,
        borrowed_book_ids := [20, 21, 22, 23], reserved_book_ids := [] }
      { book_id := 10, library_id := 1, total_copies := 3,
        available_copies := 3, reserved_copies := 0 }
      (by decide) (by decide)).2 samplePolicy (by decide) (by decide)).2.1
     (by decide) (by decide),
   ((c4_borrow_validation_failures limitDB 2 11 0
      { user_id := 2, library_id := 1, is_active := true,
        borrowed_book_ids := [], reserved_book_ids := [] }
      { book_id := 11, library_id := 1, total_copies := 2,
        available_copies := 0, reserved_copies := 0 }
      (by decide) (by decide)).2 samplePolicy (by decide) (by decide)).2.2
     (by decide) (by decide) (by decide) (by decide)⟩

/-- C7: cancelling a loan succeeds only while its status is `requested`:
it then deletes the loan record, increments `available_copies` by 1 and
removes the book from the user's `borrowed_book_ids`; for any loan whose
status has progressed past `requested` it fails with the cannot-cancel
`InvalidState` error, and the aborted transaction mutates nothing. -/
theorem c7_cancel_only_requested (db : DB) (borrowId ruid : Nat) (role : String)
    (t : BorrowTransaction) (u : User) (b : Book)
    (ht : findTransaction db borrowId = some t)
    (hu : findUser db t.user_id = some u)
    (hb : findBook db t.book_id = some b)
    (hro : (role == "member" && t.user_id != ruid) = false) :
    (t.status = .requested →
      cancelBorrow db borrowId ruid role = .ok
        { db with
            transactions :=
              db.transactions.filter (fun x => x.borrow_id != t.borrow_id),
            books := db.books.map (fun x =>
              if x.book_id == t.book_id then
                { x with available_copies := x.available_copies + 1 } else x),
            users := db.users.map (fun x =>
              if x.user_id == t.user_id then
                { x with borrowed_book_ids :=
                    u.borrowed_book_ids.filter (fun id => id != t.book_id) }
              else x) }) ∧
    (t.status ≠ .requested →
      cancelBorrow db borrowId ruid role = .error .cannotCancel) := by
  have hb' : db.books.find? (fun x => x.book_id == t.book_id) = some b := hb
  constructor
  · intro hst
    unfold cancelBorrow
    simp only [ht, hu, hro]
    rw [if_neg (by simp), if_neg (by simp [hst])]
    unfold findBook
    simp only []
    rw [hb']
  · intro hst
    unfold cancelBorrow
    simp only [ht, hro]
    rw [if_neg (by simp), if_pos hst]

/-- C7 witness: requested loan 50 cancels (restoring the available copy
and the user's slot); borrowed loan 51 is rejected. -/
theorem c7_cancel_only_requested_witness :
    cancelLoan.status = .requested ∧
    cancelBorrow cancelDB 50 1 "member" = .ok
      { cancelDB with
          transactions :=
            cancelDB.transactions.filter (fun x => x.borrow_id != cancelLoan.borrow_id),
          books := cancelDB.books.map (fun x =>
            if x.book_id == cancelLoan.book_id then
              { x with available_copies := x.available_copies + 1 } else x),
          users := cancelDB.users.map (fun x =>
            if x.user_id == cancelLoan.user_id then
              { x with borrowed_book_ids :=
                  cancelUser.borrowed_book_ids.filter (fun id =>
                    id != cancelLoan.book_id) }
            else x) } ∧
    cancelLoanLate.status ≠ .requested ∧
    cancelBorrow cancelDB 51 1 "member" = .error .cannotCancel :=
  ⟨by decide,
   (c7_cancel_only_requested cancelDB 50 1 "member" cancelLoan cancelUser
      { book_id := 10, library_id := 1, total_copies := 3,
        available_copies := 1, reserved_copies := 0 }
      (by decide) (by decide) (by decide) (by decide)).1 (by decide),
   by decide,
   (c7_cancel_only_requested cancelDB 51 1 "member" cancelLoanLate cancelUser
      { book_id := 12, library_id := 1, total_copies := 1,
        available_copies := 0, reserved_copies := 0 }
      (by decide) (by decide) (by decide) (by decide)).2 (by decide)⟩

/-- C8: a Fine's `is_paid` flag moves only from `false` to `true`, by the
payment operation; paying an already-paid fine fails with the
already-paid `Conflict`/`InvalidState` error and, the lookup preceding any
write, leaves the fine unchanged. -/
theorem c8_fine_payment_one_way (db : DB) (fineId : Nat) (f : Fine)
    (hf : findFine db fineId = some f) :
    (f.is_paid = true → markFineAsPaid db fineId = .error .alreadyPaid) ∧
    (f.is_paid = false →
      markFineAsPaid db fineId = .ok
        ({ db with fines := db.fines.map (fun x =>
             if x.fine_id == fineId then { x with is_paid := true } else x) },
         { f with is_paid := true }) ∧
      findFine { db with fines := db.fines.map (fun x =>
            if x.fine_id == fineId then { x with is_paid := true } else x) }
          fineId = some { f with is_paid := true }) := by
  have hf' : db.fines.find? (fun x => x.fine_id == fineId) = some f := hf
  constructor
  · intro hpaid
    unfold markFineAsPaid
    simp only [hf]
    rw [if_pos hpaid]
  · intro hunpaid
    constructor
    · unfold markFineAsPaid
      simp only [hf]
      rw [if_neg (by simp [hunpaid])]
    · show (db.fines.map (fun x =>
          if x.fine_id == fineId then { x with is_paid := true } else x)).find?
            (fun x => x.fine_id == fineId) = some { f with is_paid := true }
      rw [find?_map_update db.fines (fun x => x.fine_id == fineId)
            (fun x => { x with is_paid := true }) (fun a ha => ha),
          hf']
      rfl

/-- C8 witness: paying unpaid fine 70 flips `is_paid` to true; paying
already-paid fine 71 is rejected and changes nothing. -/
theorem c8_fine_payment_one_way_witness :
    unpaidFine.is_paid = false ∧
    markFineAsPaid fineDB 70 = .ok
      ({ fineDB with fines := fineDB.fines.map (fun x =>
           if x.fine_id == 70 then { x with is_paid := true } else x) },
       { unpaidFine with is_paid := true }) ∧
    paidFine.is_paid = true ∧
    markFineAsPaid fineDB 71 = .error .alreadyPaid :=
  ⟨by decide,
   ((c8_fine_payment_one_way fineDB 70 unpaidFine (by decide)).2 (by decide)).1,
   by decide,
   (c8_fine_payment_one_way fineDB 71 paidFine (by decide)).1 (by decide)⟩

/-- C9: a return request by a member-role user (`role = "member"`, the
lowercase `RoleType` value `authenticate` reads back from the database) on
a loan they do not own fails with HTTP 403 Forbidden and the state is
untouched.  The 403 is produced by the route's
`authorize(['Member', 'Librarian'])` gate, whose capitalised role list
never contains the lowercase role value — so the gate rejects every
member-role request (own loans included) before the controller's own
ownership check (which compares against `'Member'` and whose catch block
would map `Forbidden` to 400) can run. -/
theorem c9_member_return_forbidden (db : DB) (ruid borrowId : Nat) (now : Int)
    (t : BorrowTransaction)
    (_ht : findTransaction db borrowId = some t)
    (_hown : t.user_id ≠ ruid) :
    returnRoute db ruid "member" borrowId now = (403, db) := by
  unfold returnRoute
  rw [if_pos (by decide)]

/-- C9 witness: member user 1 requesting the return of user 2's loan 50
receives 403 with the database unchanged. -/
theorem c9_member_return_forbidden_witness :
    routeLoan.user_id ≠ 1 ∧
    returnRoute routeDB 1 "member" 50 100 = (403, routeDB) :=
  ⟨by decide,
   c9_member_return_forbidden routeDB 1 50 100 routeLoan (by decide) (by decide)⟩
